import Mathlib

/-!
Shallow embedding of the PCF8523 real-time-clock driver (RTCom/PCF8523.py).

The I2C bus is modelled as a byte-per-register store together with the list
of device addresses answering on the bus.  Every driver method becomes a
function from the bus state to a record holding the Python result (normal
return or raised exception), the bus state after the call, and the trace of
bus accesses (register reads, register writes, scans) the call performed.
-/

namespace PCF8523

/-- Fixed device address of the PCF8523 (decimal 104). -/
def _ADDRESS : Nat := 104

def _REGISTER_CONTROL_1 : Nat := 0x00
def _REGISTER_CONTROL_2 : Nat := 0x01
def _REGISTER_CONTROL_3 : Nat := 0x02
def _REGISTER_SECOND : Nat := 0x03
def _REGISTER_MINUTE : Nat := 0x04
def _REGISTER_HOUR : Nat := 0x05
def _REGISTER_DAY : Nat := 0x06
def _REGISTER_WEEKDAY : Nat := 0x07
def _REGISTER_MONTH : Nat := 0x08
def _REGISTER_YEAR : Nat := 0x09

def WEEKDAY_STR : List String := ["SUN", "MON", "TUE", "WED", "THU", "FRI", "SAT"]

def MONTH_STR : List String :=
  ["JAN", "FEB", "MAR", "APR", "MAY", "JUN", "JUL", "AUG", "SEP", "OCT", "NOV", "DEC"]

/-- Python exceptions raised by the driver. -/
inductive Err where
  | valueError (msg : String)
  | runtimeError (msg : String)
  | indexError
deriving Repr, DecidableEq

/-- One bus access: a one-byte register read, a one-byte register write,
or an address scan. -/
inductive Event where
  | read (addr : Nat)
  | write (addr : Nat) (val : Nat)
  | scanEv
deriving Repr, DecidableEq

/-- The modelled I2C bus: a byte value per register address, and the list of
device addresses that answer a scan. -/
structure I2C where
  regs : Nat → Nat
  devices : List Nat

/-- Result of running one driver call: the Python outcome (normal value or
raised exception), the bus state when the call ends, and the ordered trace
of bus accesses it performed. -/
structure Res (α : Type) where
  result : Except Err α
  bus : I2C
  trace : List Event

/-- Sequencing of two driver steps: a raised exception aborts the rest, and
bus-access traces concatenate. -/
def Res.bind (r : Res α) (f : α → I2C → Res β) : Res β :=
  match r with
  | ⟨.ok a, st, tr⟩ =>
    let r2 := f a st
    ⟨r2.result, r2.bus, tr ++ r2.trace⟩
  | ⟨.error e, st, tr⟩ => ⟨.error e, st, tr⟩

/-- A Python value that is either an int or a str (the weekday and month
setters accept both; the weekday and month getters return one of the two). -/
inductive IntOrStr where
  | int (n : Int)
  | str (s : String)
deriving Repr, DecidableEq

/-- A Python value passed where a boolean flag is expected; non-boolean
values trip the identity checks of the source. -/
inductive PyVal where
  | pybool (b : Bool)
  | pyint (n : Int)
  | pystr (s : String)
deriving Repr, DecidableEq

/-- Python list indexing: a non-negative index counts from the front, a
negative index counts from the back, anything else is an IndexError. -/
def pyGet (l : List α) (i : Int) : Option α :=
  if 0 ≤ i then l[i.toNat]?
  else if (-i).toNat ≤ l.length then l[l.length - (-i).toNat]? else none

/-- Update one register of the byte store. -/
def updateReg (regs : Nat → Nat) (addr val : Nat) : Nat → Nat :=
  fun a => if a = addr then val else regs a

def __read_register (st : I2C) (reg_addr : Nat) : Res Nat :=
  ⟨.ok (st.regs reg_addr), st, [.read reg_addr]⟩

def __write_register (st : I2C) (reg_addr value : Nat) : Res PUnit :=
  ⟨.ok ⟨⟩, ⟨updateReg st.regs reg_addr value, st.devices⟩, [.write reg_addr value]⟩

def scan (st : I2C) : Res (List Nat) :=
  ⟨.ok st.devices, st, [.scanEv]⟩

def __enable_24_mode (st : I2C) : Res PUnit :=
  (__read_register st _REGISTER_CONTROL_1).bind fun ctrl1_val st =>
    __write_register st _REGISTER_CONTROL_1 (ctrl1_val &&& 0xF7)

def __get_bit_12_24 (st : I2C) : Res Nat :=
  (__read_register st _REGISTER_CONTROL_1).bind fun ctrl1_val st =>
    ⟨.ok ((ctrl1_val &&& 0x08) >>> 3), st, []⟩

def battery_switch_over (st : I2C) (activate : PyVal) : Res PUnit :=
  (__read_register st _REGISTER_CONTROL_3).bind fun ctrl3_val st =>
    let ctrl3_val := ctrl3_val &&& 0xF7
    match activate with
    | .pybool true =>
      __write_register st _REGISTER_CONTROL_3 (ctrl3_val &&& 0x1F)
    | .pybool false =>
      __write_register st _REGISTER_CONTROL_3 (ctrl3_val ||| 0xE0)
    | _ => ⟨.error (.valueError "battery_switch_over only takes boolean argument"), st, []⟩

def vbat_interrupt (st : I2C) (activate : PyVal) : Res PUnit :=
  (__read_register st _REGISTER_CONTROL_3).bind fun ctrl3_val st =>
    match activate with
    | .pybool true =>
      __write_register st _REGISTER_CONTROL_3 (ctrl3_val ||| 0x01)
    | .pybool false =>
      __write_register st _REGISTER_CONTROL_3 (ctrl3_val &&& 0xFE)
    | _ => ⟨.error (.valueError "vbat_interrupt only takes boolean argument"), st, []⟩

def get_second (st : I2C) : Res Nat :=
  (__read_register st _REGISTER_SECOND).bind fun second_bcd st =>
    ⟨.ok (10 * ((second_bcd &&& 0b01110000) >>> 4) + (second_bcd &&& 0b00001111)), st, []⟩

def get_minute (st : I2C) : Res Nat :=
  (__read_register st _REGISTER_MINUTE).bind fun minute_bcd st =>
    ⟨.ok (10 * ((minute_bcd &&& 0x70) >>> 4) + (minute_bcd &&& 0x0F)), st, []⟩

def get_hour (st : I2C) : Res Nat :=
  (__read_register st _REGISTER_HOUR).bind fun hour_bcd st =>
    (__get_bit_12_24 st).bind fun bit_12_24 st =>
      if bit_12_24 = 0 then
        ⟨.ok (10 * ((hour_bcd &&& 0x30) >>> 4) + (hour_bcd &&& 0x0F)), st, []⟩
      else
        ⟨.ok (12 * ((hour_bcd &&& 0x20) >>> 5) + 10 * ((hour_bcd &&& 0x10) >>> 4) +
          (hour_bcd &&& 0x0F)), st, []⟩

def get_day (st : I2C) : Res Nat :=
  (__read_register st _REGISTER_DAY).bind fun day_bcd st =>
    ⟨.ok (10 * ((day_bcd &&& 0x30) >>> 4) + (day_bcd &&& 0x0F)), st, []⟩

def get_weekday (st : I2C) (as_str : Bool) : Res IntOrStr :=
  (__read_register st _REGISTER_WEEKDAY).bind fun wd_8bits st =>
    let wd := wd_8bits &&& 0x07
    if as_str then
      match pyGet WEEKDAY_STR (wd : Int) with
      | some s => ⟨.ok (.str s), st, []⟩
      | none => ⟨.error .indexError, st, []⟩
    else ⟨.ok (.int wd), st, []⟩

def get_month (st : I2C) (as_str : Bool) : Res IntOrStr :=
  (__read_register st _REGISTER_MONTH).bind fun month_bcd st =>
    let month := 10 * ((month_bcd &&& 0x10) >>> 4) + (month_bcd &&& 0x0F)
    if as_str then
      match pyGet MONTH_STR ((month : Int) - 1) with
      | some s => ⟨.ok (.str s), st, []⟩
      | none => ⟨.error .indexError, st, []⟩
    else ⟨.ok (.int month), st, []⟩

def get_year (st : I2C) : Res Nat :=
  (__read_register st _REGISTER_YEAR).bind fun year_bcd st =>
    ⟨.ok (10 * ((year_bcd &&& 0xF0) >>> 4) + (year_bcd &&& 0x0F) + 1970), st, []⟩

def set_second (st : I2C) (second : Int) : Res PUnit :=
  if ¬ (0 ≤ second ∧ second < 60) then
    ⟨.error (.valueError ("Second value must be in range [0..59] but is " ++ toString second)),
      st, []⟩
  else
    let tens := second.toNat / 10
    let digit := second.toNat % 10
    __write_register st _REGISTER_SECOND ((tens <<< 4) ||| digit)

def set_minute (st : I2C) (minute : Int) : Res PUnit :=
  if ¬ (0 ≤ minute ∧ minute < 60) then
    ⟨.error (.valueError ("Second value must be in range [0..59] but is " ++ toString minute)),
      st, []⟩
  else
    let tens := minute.toNat / 10
    let digit := minute.toNat % 10
    __write_register st _REGISTER_MINUTE ((tens <<< 4) ||| digit)

def set_hour (st : I2C) (hour : Int) : Res PUnit :=
  if ¬ (0 ≤ hour ∧ hour < 24) then
    ⟨.error (.valueError ("Hour value for 24h must be in range [1..23] but is " ++ toString hour)),
      st, []⟩
  else
    (__get_bit_12_24 st).bind fun bit_12_24 st =>
      if bit_12_24 = 0 then
        let tens := hour.toNat / 10
        let digit := hour.toNat % 10
        __write_register st _REGISTER_HOUR ((tens <<< 4) ||| digit)
      else
        let meridien : Nat := if hour ≤ 12 then 0 else 1
        let h12 : Nat := if hour = 12 then 12 else hour.toNat % 12
        let tens := h12 / 10
        let digit := h12 % 10
        __write_register st _REGISTER_HOUR ((meridien <<< 5) ||| (tens <<< 4) ||| digit)

def set_day (st : I2C) (day : Int) : Res PUnit :=
  if ¬ (1 ≤ day ∧ day < 31) then
    ⟨.error (.valueError ("Day value must be in range [1..12] but is " ++ toString day)), st, []⟩
  else
    let tens := day.toNat / 10
    let digit := day.toNat % 10
    __write_register st _REGISTER_DAY ((tens <<< 4) ||| digit)

def set_weekday (st : I2C) (weekday : IntOrStr) : Res PUnit :=
  match weekday with
  | .str s =>
    if s ∈ WEEKDAY_STR then
      let weekday_int : Int := WEEKDAY_STR.indexOf s
      if ¬ (0 ≤ weekday_int ∧ weekday_int < 7) then
        ⟨.error (.valueError ("Weekday value must be in range [0..6] but is " ++
          toString weekday_int)), st, []⟩
      else __write_register st _REGISTER_WEEKDAY weekday_int.toNat
    else
      ⟨.error (.valueError ("Weekday as a string can only take the value " ++
        toString WEEKDAY_STR)), st, []⟩
  | .int n =>
    if ¬ (0 ≤ n ∧ n < 7) then
      ⟨.error (.valueError ("Weekday value must be in range [0..6] but is " ++ toString n)),
        st, []⟩
    else __write_register st _REGISTER_WEEKDAY n.toNat

def set_month (st : I2C) (month : IntOrStr) : Res PUnit :=
  match month with
  | .str s =>
    if s ∈ MONTH_STR then
      let month_int : Int := MONTH_STR.indexOf s + 1
      if ¬ (1 ≤ month_int ∧ month_int < 13) then
        ⟨.error (.valueError ("Month value must be in range [1..12] but is " ++
          toString month_int)), st, []⟩
      else
        let tens := month_int.toNat / 10
        let digit := month_int.toNat % 10
        __write_register st _REGISTER_MONTH ((tens <<< 4) ||| digit)
    else
      ⟨.error (.valueError ("Weekday as a string can only take the value " ++
        toString MONTH_STR)), st, []⟩
  | .int n =>
    if ¬ (1 ≤ n ∧ n < 13) then
      ⟨.error (.valueError ("Month value must be in range [1..12] but is " ++ toString n)),
        st, []⟩
    else
      let tens := n.toNat / 10
      let digit := n.toNat % 10
      __write_register st _REGISTER_MONTH ((tens <<< 4) ||| digit)

def set_year (st : I2C) (year : Int) : Res PUnit :=
  if ¬ (1970 ≤ year ∧ year < 2120) then
    ⟨.error (.valueError ("Year must be in range [1970..2129] but is " ++ toString year)), st, []⟩
  else
    let tens := (year - 1970).toNat / 10
    let digit := (year - 1970).toNat % 10
    __write_register st _REGISTER_YEAR ((tens <<< 4) ||| digit)

/-- Reading one element of a Python sequence inside `set_time`; an index past
the end raises IndexError. -/
def tupleItem (st : I2C) (l : List Int) (i : Nat) : Res Int :=
  match l[i]? with
  | some v => ⟨.ok v, st, []⟩
  | none => ⟨.error .indexError, st, []⟩

def set_time (st : I2C) (datetime : List Int) : Res PUnit :=
  (tupleItem st datetime 0).bind fun y st =>
  (set_year st y).bind fun _ st =>
  (tupleItem st datetime 1).bind fun mo st =>
  (set_month st (.int mo)).bind fun _ st =>
  (tupleItem st datetime 2).bind fun d st =>
  (set_day st d).bind fun _ st =>
  (if 3 < datetime.length then
    (tupleItem st datetime 3).bind fun h st => set_hour st h
  else set_hour st 0).bind fun _ st =>
  (if 4 < datetime.length then
    (tupleItem st datetime 4).bind fun mi st => set_minute st mi
  else set_minute st 0).bind fun _ st =>
  (if 5 < datetime.length then
    (tupleItem st datetime 5).bind fun s st => set_second st s
  else set_second st 0)

def now (st : I2C) : Res (List IntOrStr) :=
  (get_year st).bind fun year st =>
  (get_month st false).bind fun month st =>
  (get_day st).bind fun day st =>
  (get_hour st).bind fun hour st =>
  (get_minute st).bind fun minute st =>
  (get_second st).bind fun second st =>
  ⟨.ok [.int year, month, .int day, .int hour, .int minute, .int second, .int 0, .int 0],
    st, []⟩

def init (st : I2C) (datetime : Option (List Int)) (switch_over vbat_int : PyVal) : Res PUnit :=
  (scan st).bind fun devs st =>
    if _ADDRESS ∈ devs then
      (__enable_24_mode st).bind fun _ st =>
      (battery_switch_over st switch_over).bind fun _ st =>
      (vbat_interrupt st vbat_int).bind fun _ st =>
      match datetime with
      | some dt => set_time st dt
      | none => ⟨.ok ⟨⟩, st, []⟩
    else ⟨.error (.runtimeError "PCF8523 module is not detected in the I2C bus"), st, []⟩

/-- The message carried by a raised exception (empty for IndexError and for
normal returns). -/
def errMsg : Except Err α → String
  | .error (.valueError m) => m
  | .error (.runtimeError m) => m
  | _ => ""

/-- An all-zero bus on which the device answers the scan. -/
def bus0 : I2C := ⟨fun _ => 0, [_ADDRESS]⟩

end PCF8523

namespace PCF8523

@[simp] theorem updateReg_same (regs : Nat → Nat) (a v : Nat) : updateReg regs a v a = v := by
  simp [updateReg]

@[simp] theorem updateReg_of_ne (regs : Nat → Nat) (a b v : Nat) (h : b ≠ a) :
    updateReg regs a v b = regs b := by
  simp [updateReg, h]

@[simp] theorem Res.bind_mk_ok (a : α) (st : I2C) (tr : List Event) (f : α → I2C → Res β) :
    Res.bind ⟨.ok a, st, tr⟩ f = ⟨(f a st).result, (f a st).bus, tr ++ (f a st).trace⟩ := rfl

@[simp] theorem Res.bind_mk_error (e : Err) (st : I2C) (tr : List Event)
    (f : α → I2C → Res β) : Res.bind ⟨.error e, st, tr⟩ f = ⟨.error e, st, tr⟩ := rfl

/-- Masking any natural number with 8 keeps only bit 3, so the result is 0 or 8. -/
theorem and_eight (a : Nat) : a &&& 8 = 0 ∨ a &&& 8 = 8 := by
  have h : a &&& 8 = (a.testBit 3).toNat * 8 := by
    simpa using Nat.and_two_pow a 3
  cases hb : a.testBit 3
  · left; rw [h, hb]; decide
  · right; rw [h, hb]; decide

/-- C7: when the scan does not report address 104, `init` raises the
device-not-found RuntimeError, its only bus access is the scan itself (no
register read or write), and the register store is returned unchanged. -/
theorem C7_init_absent (st : I2C) (dt : Option (List Int)) (so vb : PyVal)
    (h : _ADDRESS ∉ st.devices) :
    init st dt so vb =
      ⟨.error (.runtimeError "PCF8523 module is not detected in the I2C bus"), st, [.scanEv]⟩ := by
  simp [init, scan, Res.bind, h]

/-- C7 witness: on a bus with an empty device list, `init` fails as the claim
states. -/
theorem C7_init_absent_witness :
    _ADDRESS ∉ ([] : List Nat) ∧
    init ⟨fun _ => 0, []⟩ none (.pybool true) (.pybool false) =
      ⟨.error (.runtimeError "PCF8523 module is not detected in the I2C bus"),
        ⟨fun _ => 0, []⟩, [.scanEv]⟩ :=
  ⟨by decide, C7_init_absent ⟨fun _ => 0, []⟩ none (.pybool true) (.pybool false) (by decide)⟩

/-- C2 (amended): each out-of-domain input from the claim makes its setter
raise a ValueError and perform no register access (the returned state is the
unchanged input state and the trace is empty); the messages carry the
rejected value, but the minute message names the field "Second", and the
day, hour and year messages state the bounds [1..12], [1..23] and
[1970..2129] instead of the enforced domains [1..30], [0..23] and
[1970..2119]. -/
theorem C2_boundary_rejection (st : I2C) :
    set_second st 60 =
      ⟨.error (.valueError "Second value must be in range [0..59] but is 60"), st, []⟩ ∧
    set_minute st 60 =
      ⟨.error (.valueError "Second value must be in range [0..59] but is 60"), st, []⟩ ∧
    set_day st 0 =
      ⟨.error (.valueError "Day value must be in range [1..12] but is 0"), st, []⟩ ∧
    set_day st 31 =
      ⟨.error (.valueError "Day value must be in range [1..12] but is 31"), st, []⟩ ∧
    set_month st (.int 0) =
      ⟨.error (.valueError "Month value must be in range [1..12] but is 0"), st, []⟩ ∧
    set_month st (.int 13) =
      ⟨.error (.valueError "Month value must be in range [1..12] but is 13"), st, []⟩ ∧
    set_year st 1969 =
      ⟨.error (.valueError "Year must be in range [1970..2129] but is 1969"), st, []⟩ ∧
    set_year st 2120 =
      ⟨.error (.valueError "Year must be in range [1970..2129] but is 2120"), st, []⟩ ∧
    set_weekday st (.int 7) =
      ⟨.error (.valueError "Weekday value must be in range [0..6] but is 7"), st, []⟩ ∧
    set_hour st 24 =
      ⟨.error (.valueError "Hour value for 24h must be in range [1..23] but is 24"), st, []⟩ ∧
    set_hour st (-1) =
      ⟨.error (.valueError "Hour value for 24h must be in range [1..23] but is -1"), st, []⟩ :=
  ⟨rfl, rfl, rfl, rfl, rfl, rfl, rfl, rfl, rfl, rfl, rfl⟩

/-- C2 counterexample: the error raised for minute=60 does not carry the
offending field name — its message reads "Second value ...", with no
occurrence of "inute" (so neither "Minute" nor "minute") in it. -/
theorem C2_counterexample :
    errMsg (set_minute bus0 60).result = "Second value must be in range [0..59] but is 60" ∧
    ¬ ("inute".toList <:+: (errMsg (set_minute bus0 60).result).toList) :=
  ⟨rfl, by decide⟩

end PCF8523

namespace PCF8523

/-- C3 (amended): a validation failure never writes a register. For the seven
field setters an invalid argument is rejected before any bus access at all
(empty trace, state unchanged); but `battery_switch_over` and
`vbat_interrupt` read control register 3 once before raising on a
non-boolean flag (their trace on failure is that single read; still no
write, state unchanged). -/
theorem C3_validation_before_write (st : I2C) :
    (∀ n : Int, ¬ (0 ≤ n ∧ n < 60) → set_second st n =
      ⟨.error (.valueError ("Second value must be in range [0..59] but is " ++ toString n)),
        st, []⟩) ∧
    (∀ n : Int, ¬ (0 ≤ n ∧ n < 60) → set_minute st n =
      ⟨.error (.valueError ("Second value must be in range [0..59] but is " ++ toString n)),
        st, []⟩) ∧
    (∀ n : Int, ¬ (0 ≤ n ∧ n < 24) → set_hour st n =
      ⟨.error (.valueError ("Hour value for 24h must be in range [1..23] but is " ++ toString n)),
        st, []⟩) ∧
    (∀ n : Int, ¬ (1 ≤ n ∧ n < 31) → set_day st n =
      ⟨.error (.valueError ("Day value must be in range [1..12] but is " ++ toString n)),
        st, []⟩) ∧
    (∀ n : Int, ¬ (0 ≤ n ∧ n < 7) → set_weekday st (.int n) =
      ⟨.error (.valueError ("Weekday value must be in range [0..6] but is " ++ toString n)),
        st, []⟩) ∧
    (∀ s : String, s ∉ WEEKDAY_STR → set_weekday st (.str s) =
      ⟨.error (.valueError ("Weekday as a string can only take the value " ++
        toString WEEKDAY_STR)), st, []⟩) ∧
    (∀ n : Int, ¬ (1 ≤ n ∧ n < 13) → set_month st (.int n) =
      ⟨.error (.valueError ("Month value must be in range [1..12] but is " ++ toString n)),
        st, []⟩) ∧
    (∀ s : String, s ∉ MONTH_STR → set_month st (.str s) =
      ⟨.error (.valueError ("Weekday as a string can only take the value " ++
        toString MONTH_STR)), st, []⟩) ∧
    (∀ n : Int, ¬ (1970 ≤ n ∧ n < 2120) → set_year st n =
      ⟨.error (.valueError ("Year must be in range [1970..2129] but is " ++ toString n)),
        st, []⟩) ∧
    (∀ n : Int, battery_switch_over st (.pyint n) =
      ⟨.error (.valueError "battery_switch_over only takes boolean argument"),
        st, [.read _REGISTER_CONTROL_3]⟩) ∧
    (∀ s : String, battery_switch_over st (.pystr s) =
      ⟨.error (.valueError "battery_switch_over only takes boolean argument"),
        st, [.read _REGISTER_CONTROL_3]⟩) ∧
    (∀ n : Int, vbat_interrupt st (.pyint n) =
      ⟨.error (.valueError "vbat_interrupt only takes boolean argument"),
        st, [.read _REGISTER_CONTROL_3]⟩) ∧
    (∀ s : String, vbat_interrupt st (.pystr s) =
      ⟨.error (.valueError "vbat_interrupt only takes boolean argument"),
        st, [.read _REGISTER_CONTROL_3]⟩) := by
  refine ⟨fun n h => ?_, fun n h => ?_, fun n h => ?_, fun n h => ?_, fun n h => ?_,
    fun s h => ?_, fun n h => ?_, fun s h => ?_, fun n h => ?_,
    fun n => rfl, fun s => rfl, fun n => rfl, fun s => rfl⟩
  · simp only [set_second]; rw [if_pos h]
  · simp only [set_minute]; rw [if_pos h]
  · simp only [set_hour]; rw [if_pos h]
  · simp only [set_day]; rw [if_pos h]
  · simp only [set_weekday]; rw [if_pos h]
  · simp only [set_weekday]; rw [if_neg h]
  · simp only [set_month]; rw [if_pos h]
  · simp only [set_month]; rw [if_neg h]
  · simp only [set_year]; rw [if_pos h]

/-- C3 counterexample: passing the non-boolean 1 to `battery_switch_over`
raises the ValueError, yet a read of control register 3 has already happened
— the trace at the failure is not empty, so validation does not precede
every bus access. -/
theorem C3_counterexample :
    (battery_switch_over bus0 (.pyint 1)).result =
      .error (.valueError "battery_switch_over only takes boolean argument") ∧
    (battery_switch_over bus0 (.pyint 1)).trace = [.read _REGISTER_CONTROL_3] ∧
    (battery_switch_over bus0 (.pyint 1)).trace ≠ [] :=
  ⟨rfl, rfl, by decide⟩

/-- C3 witness: the amended claim applied at second=60 and at a non-boolean
switch-over flag on the all-zero bus. -/
theorem C3_validation_before_write_witness :
    ¬ ((0:Int) ≤ 60 ∧ (60:Int) < 60) ∧
    set_second bus0 60 =
      ⟨.error (.valueError ("Second value must be in range [0..59] but is " ++
        toString (60:Int))), bus0, []⟩ ∧
    battery_switch_over bus0 (.pyint 2) =
      ⟨.error (.valueError "battery_switch_over only takes boolean argument"),
        bus0, [.read _REGISTER_CONTROL_3]⟩ :=
  ⟨by decide, (C3_validation_before_write bus0).1 60 (by decide),
    (C3_validation_before_write bus0).2.2.2.2.2.2.2.2.2.1 2⟩

end PCF8523

namespace PCF8523

/-- C4: for every boolean flag and every prior bus state,
`battery_switch_over` performs exactly one read followed by one write of
control register 3; in the written byte bit 3 is cleared, bits 5, 6 and 7
are all cleared when the flag is true and all set when it is false, and
bits 0, 1, 2 and 4 keep their pre-call values; every other register is
untouched. -/
theorem C4_switch_over_rmw (st : I2C) (b : Bool) :
    (battery_switch_over st (.pybool b)).result = .ok ⟨⟩ ∧
    (battery_switch_over st (.pybool b)).trace =
      [.read _REGISTER_CONTROL_3,
       .write _REGISTER_CONTROL_3
         ((battery_switch_over st (.pybool b)).bus.regs _REGISTER_CONTROL_3)] ∧
    ((battery_switch_over st (.pybool b)).bus.regs _REGISTER_CONTROL_3).testBit 3 = false ∧
    ((battery_switch_over st (.pybool b)).bus.regs _REGISTER_CONTROL_3).testBit 5 = !b ∧
    ((battery_switch_over st (.pybool b)).bus.regs _REGISTER_CONTROL_3).testBit 6 = !b ∧
    ((battery_switch_over st (.pybool b)).bus.regs _REGISTER_CONTROL_3).testBit 7 = !b ∧
    ((battery_switch_over st (.pybool b)).bus.regs _REGISTER_CONTROL_3).testBit 0 =
      (st.regs _REGISTER_CONTROL_3).testBit 0 ∧
    ((battery_switch_over st (.pybool b)).bus.regs _REGISTER_CONTROL_3).testBit 1 =
      (st.regs _REGISTER_CONTROL_3).testBit 1 ∧
    ((battery_switch_over st (.pybool b)).bus.regs _REGISTER_CONTROL_3).testBit 2 =
      (st.regs _REGISTER_CONTROL_3).testBit 2 ∧
    ((battery_switch_over st (.pybool b)).bus.regs _REGISTER_CONTROL_3).testBit 4 =
      (st.regs _REGISTER_CONTROL_3).testBit 4 ∧
    (∀ a, a = _REGISTER_CONTROL_3 ∨
      (battery_switch_over st (.pybool b)).bus.regs a = st.regs a) := by
  have hframe : ∀ a, a = _REGISTER_CONTROL_3 ∨
      (battery_switch_over st (.pybool b)).bus.regs a = st.regs a := by
    intro a
    by_cases ha : a = _REGISTER_CONTROL_3
    · exact Or.inl ha
    · right
      cases b <;> simp [battery_switch_over, __read_register, __write_register,
        Res.bind, updateReg, ha]
  cases b <;>
    refine ⟨rfl, rfl, ?_, ?_, ?_, ?_, ?_, ?_, ?_, ?_, hframe⟩ <;>
    simp [battery_switch_over, __read_register, __write_register, Res.bind,
      updateReg, _REGISTER_CONTROL_3, Nat.testBit_land, Nat.testBit_lor] <;>
    simp [Nat.testBit]

end PCF8523

namespace PCF8523

theorem second_roundtrip (st : I2C) (v : Nat) (hv : v < 60) :
    (set_second st (v : Int)).result = .ok ⟨⟩ ∧
    (get_second (set_second st (v : Int)).bus).result = .ok v := by
  have hP : (0:Int) ≤ (v : Int) ∧ (v : Int) < 60 :=
    ⟨Int.natCast_nonneg v, by exact_mod_cast hv⟩
  simp only [set_second, if_neg (not_not_intro hP), __write_register,
    get_second, __read_register, Res.bind_mk_ok,
    _REGISTER_SECOND, updateReg_same, Int.toNat_natCast]
  refine ⟨trivial, ?_⟩
  simp only [Except.ok.injEq]
  clear hP
  revert v
  decide

theorem minute_roundtrip (st : I2C) (v : Nat) (hv : v < 60) :
    (set_minute st (v : Int)).result = .ok ⟨⟩ ∧
    (get_minute (set_minute st (v : Int)).bus).result = .ok v := by
  have hP : (0:Int) ≤ (v : Int) ∧ (v : Int) < 60 :=
    ⟨Int.natCast_nonneg v, by exact_mod_cast hv⟩
  simp only [set_minute, if_neg (not_not_intro hP), __write_register,
    get_minute, __read_register, Res.bind_mk_ok,
    _REGISTER_MINUTE, updateReg_same, Int.toNat_natCast]
  refine ⟨trivial, ?_⟩
  simp only [Except.ok.injEq]
  clear hP
  revert v
  decide

theorem day_roundtrip (st : I2C) (v : Nat) (h1 : 1 ≤ v) (hv : v < 31) :
    (set_day st (v : Int)).result = .ok ⟨⟩ ∧
    (get_day (set_day st (v : Int)).bus).result = .ok v := by
  have hP : (1:Int) ≤ (v : Int) ∧ (v : Int) < 31 :=
    ⟨by exact_mod_cast h1, by exact_mod_cast hv⟩
  simp only [set_day, if_neg (not_not_intro hP), __write_register,
    get_day, __read_register, Res.bind_mk_ok,
    _REGISTER_DAY, updateReg_same, Int.toNat_natCast]
  refine ⟨trivial, ?_⟩
  simp only [Except.ok.injEq]
  clear hP
  revert v
  decide

theorem month_roundtrip (st : I2C) (v : Nat) (h1 : 1 ≤ v) (hv : v < 13) :
    (set_month st (.int (v : Int))).result = .ok ⟨⟩ ∧
    (get_month (set_month st (.int (v : Int))).bus false).result = .ok (.int (v : Int)) := by
  have hP : (1:Int) ≤ (v : Int) ∧ (v : Int) < 13 :=
    ⟨by exact_mod_cast h1, by exact_mod_cast hv⟩
  simp only [set_month, if_neg (not_not_intro hP), __write_register,
    get_month, __read_register, Res.bind_mk_ok,
    _REGISTER_MONTH, updateReg_same, Int.toNat_natCast, Bool.false_eq_true,
    if_false, Except.ok.injEq, IntOrStr.int.injEq]
  refine ⟨trivial, ?_⟩
  have : 10 * ((((v / 10) <<< 4 ||| v % 10) &&& 16) >>> 4) + (((v / 10) <<< 4 ||| v % 10) &&& 15)
      = v := by
    clear hP
    revert v
    decide
  exact_mod_cast congrArg (Nat.cast : Nat → Int) this

theorem year_roundtrip_aux (st : I2C) (w : Nat) (hw : w < 150) :
    (set_year st ((1970 + w : Nat) : Int)).result = .ok ⟨⟩ ∧
    (get_year (set_year st ((1970 + w : Nat) : Int)).bus).result = .ok (1970 + w) := by
  have hP : (1970:Int) ≤ ((1970 + w : Nat) : Int) ∧ ((1970 + w : Nat) : Int) < 2120 := by
    constructor <;> [push_cast; push_cast] <;> omega
  have hsub : (((1970 + w : Nat) : Int) - 1970).toNat = w := by omega
  simp only [set_year, if_neg (not_not_intro hP), __write_register,
    get_year, __read_register, Res.bind_mk_ok,
    _REGISTER_YEAR, updateReg_same, hsub]
  refine ⟨trivial, ?_⟩
  simp only [Except.ok.injEq]
  have : 10 * ((((w / 10) <<< 4 ||| w % 10) &&& 240) >>> 4) + (((w / 10) <<< 4 ||| w % 10) &&& 15)
      = w := by
    clear hP hsub
    revert w
    decide
  omega

theorem weekday_roundtrip (st : I2C) (v : Nat) (hv : v < 7) :
    (set_weekday st (.int (v : Int))).result = .ok ⟨⟩ ∧
    (get_weekday (set_weekday st (.int (v : Int))).bus false).result = .ok (.int (v : Int)) := by
  have hP : (0:Int) ≤ (v : Int) ∧ (v : Int) < 7 :=
    ⟨Int.natCast_nonneg v, by exact_mod_cast hv⟩
  simp only [set_weekday, if_neg (not_not_intro hP), __write_register,
    get_weekday, __read_register, Res.bind_mk_ok,
    _REGISTER_WEEKDAY, updateReg_same, Int.toNat_natCast, Bool.false_eq_true,
    if_false, Except.ok.injEq, IntOrStr.int.injEq]
  refine ⟨trivial, ?_⟩
  have : (v &&& 7) = v := by
    clear hP
    revert v
    decide
  exact_mod_cast congrArg (Nat.cast : Nat → Int) this

theorem hour_roundtrip_24 (st : I2C) (h24 : st.regs _REGISTER_CONTROL_1 &&& 0x08 = 0)
    (v : Nat) (hv : v < 24) :
    (set_hour st (v : Int)).result = .ok ⟨⟩ ∧
    (get_hour (set_hour st (v : Int)).bus).result = .ok v := by
  have hP : (0:Int) ≤ (v : Int) ∧ (v : Int) < 24 :=
    ⟨Int.natCast_nonneg v, by exact_mod_cast hv⟩
  simp only [_REGISTER_CONTROL_1] at h24
  have heq : set_hour st (v : Int) =
      ⟨.ok ⟨⟩, ⟨updateReg st.regs 5 ((v / 10) <<< 4 ||| v % 10), st.devices⟩,
        [.read 0, .write 5 ((v / 10) <<< 4 ||| v % 10)]⟩ := by
    simp only [set_hour, if_neg (not_not_intro hP), __get_bit_12_24, __read_register,
      __write_register, Res.bind_mk_ok, _REGISTER_HOUR, _REGISTER_CONTROL_1, h24,
      Int.toNat_natCast]
    rfl
  rw [heq]
  refine ⟨rfl, ?_⟩
  have h0 : updateReg st.regs 5 ((v / 10) <<< 4 ||| v % 10) 0 &&& 8 = 0 := by
    simpa [updateReg] using h24
  simp only [get_hour, __read_register, __get_bit_12_24, Res.bind_mk_ok, _REGISTER_HOUR,
    _REGISTER_CONTROL_1, h0, updateReg_same]
  show Except.ok (10 * ((((v / 10) <<< 4 ||| v % 10) &&& 0x30) >>> 4) +
    (((v / 10) <<< 4 ||| v % 10) &&& 0x0F)) = Except.ok v
  simp only [Except.ok.injEq]
  clear hP heq h0
  revert v
  decide

/-- C1: for every field and every value in its valid domain (second and
minute in [0,59], day in [1,30], month in [1,12], year in [1970,2119],
weekday in [0,6], and hour in [0,23] under 24h mode, i.e. control register 1
bit 3 clear), writing the value with the field's setter succeeds and reading
it back with the field's getter returns the same value, for every starting
bus state. -/
theorem C1_roundtrip (st : I2C) (h24 : st.regs _REGISTER_CONTROL_1 &&& 0x08 = 0) :
    (∀ v : Nat, v < 60 → (set_second st (v : Int)).result = .ok ⟨⟩ ∧
      (get_second (set_second st (v : Int)).bus).result = .ok v) ∧
    (∀ v : Nat, v < 60 → (set_minute st (v : Int)).result = .ok ⟨⟩ ∧
      (get_minute (set_minute st (v : Int)).bus).result = .ok v) ∧
    (∀ v : Nat, 1 ≤ v → v < 31 → (set_day st (v : Int)).result = .ok ⟨⟩ ∧
      (get_day (set_day st (v : Int)).bus).result = .ok v) ∧
    (∀ v : Nat, 1 ≤ v → v < 13 → (set_month st (.int (v : Int))).result = .ok ⟨⟩ ∧
      (get_month (set_month st (.int (v : Int))).bus false).result = .ok (.int (v : Int))) ∧
    (∀ v : Nat, 1970 ≤ v → v < 2120 → (set_year st (v : Int)).result = .ok ⟨⟩ ∧
      (get_year (set_year st (v : Int)).bus).result = .ok v) ∧
    (∀ v : Nat, v < 7 → (set_weekday st (.int (v : Int))).result = .ok ⟨⟩ ∧
      (get_weekday (set_weekday st (.int (v : Int))).bus false).result = .ok (.int (v : Int))) ∧
    (∀ v : Nat, v < 24 → (set_hour st (v : Int)).result = .ok ⟨⟩ ∧
      (get_hour (set_hour st (v : Int)).bus).result = .ok v) := by
  refine ⟨fun v hv => second_roundtrip st v hv,
    fun v hv => minute_roundtrip st v hv,
    fun v h1 hv => day_roundtrip st v h1 hv,
    fun v h1 hv => month_roundtrip st v h1 hv,
    fun v h1 hv => ?_,
    fun v hv => weekday_roundtrip st v hv,
    fun v hv => hour_roundtrip_24 st h24 v hv⟩
  have hw : v - 1970 < 150 := by omega
  have hveq : v = 1970 + (v - 1970) := by omega
  rw [hveq]
  exact year_roundtrip_aux st (v - 1970) hw

/-- C1 witness: the round-trip claim applied on the all-zero bus at
second=37, month=12 and hour=23. -/
theorem C1_roundtrip_witness :
    bus0.regs _REGISTER_CONTROL_1 &&& 0x08 = 0 ∧ 37 < 60 ∧ 23 < 24 ∧
    ((set_second bus0 (37 : Int)).result = .ok ⟨⟩ ∧
      (get_second (set_second bus0 (37 : Int)).bus).result = .ok 37) ∧
    ((set_month bus0 (.int (12 : Int))).result = .ok ⟨⟩ ∧
      (get_month (set_month bus0 (.int (12 : Int))).bus false).result = .ok (.int (12 : Int))) ∧
    ((set_hour bus0 (23 : Int)).result = .ok ⟨⟩ ∧
      (get_hour (set_hour bus0 (23 : Int)).bus).result = .ok 23) :=
  ⟨rfl, by decide, by decide,
    (C1_roundtrip bus0 rfl).1 37 (by decide),
    (by exact_mod_cast (C1_roundtrip bus0 rfl).2.2.2.1 12 (by decide) (by decide)),
    (C1_roundtrip bus0 rfl).2.2.2.2.2.2 23 (by decide)⟩

end PCF8523

namespace PCF8523

/-- A bus whose weekday register holds the byte 0x07 and that answers the
scan. -/
def busWd7 : I2C := ⟨fun a => if a = _REGISTER_WEEKDAY then 7 else 0, [_ADDRESS]⟩

/-- A bus whose control register 1 has bit 3 set (12h mode) and that answers
the scan. -/
def busMode12 : I2C := ⟨fun a => if a = _REGISTER_CONTROL_1 then 8 else 0, [_ADDRESS]⟩

/-- C10: if the month register decodes to the month value 0 (e.g. the
power-on byte 0x00), `get_month` with as_str does not fail: the Python index
month-1 = -1 selects the last entry of the month-name table, and the call
returns "DEC". -/
theorem C10_month_zero_wraps (st : I2C)
    (h : 10 * ((st.regs _REGISTER_MONTH &&& 0x10) >>> 4) + (st.regs _REGISTER_MONTH &&& 0x0F)
      = 0) :
    (get_month st true).result = .ok (.str "DEC") := by
  simp only [_REGISTER_MONTH] at h
  simp only [get_month, __read_register, Res.bind_mk_ok, _REGISTER_MONTH, h]
  rfl

/-- C10 witness: on the all-zero bus the month register decodes to 0 and
`get_month(as_str=True)` returns "DEC". -/
theorem C10_month_zero_wraps_witness :
    10 * ((bus0.regs _REGISTER_MONTH &&& 0x10) >>> 4) + (bus0.regs _REGISTER_MONTH &&& 0x0F)
      = 0 ∧
    (get_month bus0 true).result = .ok (.str "DEC") :=
  ⟨by decide, C10_month_zero_wraps bus0 (by decide)⟩

end PCF8523

namespace PCF8523

/-- C9 (amended): for every byte in the weekday register, `get_weekday`
returns the byte's low three bits, an integer in [0,7]; whenever that value
is at most 6, the as_str variant indexes inside the 7-element name table and
returns one of the seven names; but when the low three bits are all set
(masked value 7) the as_str variant raises IndexError. -/
theorem C9_weekday_mask_range (st : I2C) :
    (get_weekday st false).result =
      .ok (.int ((st.regs _REGISTER_WEEKDAY &&& 0x07 : Nat) : Int)) ∧
    st.regs _REGISTER_WEEKDAY &&& 0x07 < 8 ∧
    (st.regs _REGISTER_WEEKDAY &&& 0x07 < 7 →
      ∃ s ∈ WEEKDAY_STR, (get_weekday st true).result = .ok (.str s)) ∧
    (st.regs _REGISTER_WEEKDAY &&& 0x07 = 7 →
      (get_weekday st true).result = .error .indexError) := by
  refine ⟨rfl, Nat.lt_succ_of_le Nat.and_le_right, ?_, ?_⟩
  · intro h
    have h7 : st.regs _REGISTER_WEEKDAY &&& 0x07 = 0 ∨
        st.regs _REGISTER_WEEKDAY &&& 0x07 = 1 ∨ st.regs _REGISTER_WEEKDAY &&& 0x07 = 2 ∨
        st.regs _REGISTER_WEEKDAY &&& 0x07 = 3 ∨ st.regs _REGISTER_WEEKDAY &&& 0x07 = 4 ∨
        st.regs _REGISTER_WEEKDAY &&& 0x07 = 5 ∨ st.regs _REGISTER_WEEKDAY &&& 0x07 = 6 := by
      omega
    rcases h7 with hw | hw | hw | hw | hw | hw | hw <;>
      simp only [get_weekday, __read_register, Res.bind_mk_ok, hw]
    · exact ⟨"SUN", by decide, rfl⟩
    · exact ⟨"MON", by decide, rfl⟩
    · exact ⟨"TUE", by decide, rfl⟩
    · exact ⟨"WED", by decide, rfl⟩
    · exact ⟨"THU", by decide, rfl⟩
    · exact ⟨"FRI", by decide, rfl⟩
    · exact ⟨"SAT", by decide, rfl⟩
  · intro h
    simp only [get_weekday, __read_register, Res.bind_mk_ok, h]
    rfl

/-- C9 counterexample: with the weekday register holding the byte 0x07 the
masked value is 7, which is not in [0,6], and `get_weekday(as_str=True)`
raises IndexError instead of returning one of the seven names. -/
theorem C9_counterexample :
    busWd7.regs _REGISTER_WEEKDAY = 7 ∧
    (get_weekday busWd7 false).result = .ok (.int 7) ∧
    ¬ (7 : Int) ≤ 6 ∧
    (get_weekday busWd7 true).result = .error .indexError :=
  ⟨rfl, rfl, by decide, rfl⟩

/-- C9 witness: the amended claim applied on the all-zero bus (masked value
0, name "SUN") and on the bus whose weekday byte is 0x07 (IndexError). -/
theorem C9_weekday_mask_range_witness :
    (bus0.regs _REGISTER_WEEKDAY &&& 0x07 < 7 ∧
      ∃ s ∈ WEEKDAY_STR, (get_weekday bus0 true).result = .ok (.str s)) ∧
    (busWd7.regs _REGISTER_WEEKDAY &&& 0x07 = 7 ∧
      (get_weekday busWd7 true).result = .error .indexError) :=
  ⟨⟨by decide, (C9_weekday_mask_range bus0).2.2.1 (by decide)⟩,
   ⟨by decide, (C9_weekday_mask_range busWd7).2.2.2 (by decide)⟩⟩

end PCF8523

namespace PCF8523

/-- C8: with control register 1 bit 3 set (12h mode), for every hour in
[0,23] `set_hour` writes the byte (meridiem<<5)|(tens<<4)|units with
meridiem 0 for hour ≤ 12 and 1 otherwise and with tens/units the digits of
(12 if hour = 12 else hour mod 12); and `get_hour` reads the hour byte and
the mode bit and returns 12*meridiem + 10*tens + units of the stored
byte. -/
theorem C8_hour_12h_mode (st : I2C) (h12 : st.regs _REGISTER_CONTROL_1 &&& 0x08 = 8) :
    (∀ v : Nat, v < 24 →
      (set_hour st (v : Int)).result = .ok ⟨⟩ ∧
      (set_hour st (v : Int)).bus.regs _REGISTER_HOUR =
        (((if v ≤ 12 then 0 else 1) <<< 5) |||
          (((if v = 12 then 12 else v % 12) / 10) <<< 4) |||
          ((if v = 12 then 12 else v % 12) % 10))) ∧
    (get_hour st).result = .ok (12 * ((st.regs _REGISTER_HOUR &&& 0x20) >>> 5) +
      10 * ((st.regs _REGISTER_HOUR &&& 0x10) >>> 4) + (st.regs _REGISTER_HOUR &&& 0x0F)) ∧
    (get_hour st).trace = [.read _REGISTER_HOUR, .read _REGISTER_CONTROL_1] := by
  simp only [_REGISTER_CONTROL_1] at h12
  have h83 : ((8:Nat) >>> 3 = 0) = False := eq_false (by decide)
  refine ⟨fun v hv => ?_, ?_, ?_⟩
  · have hP : (0:Int) ≤ (v : Int) ∧ (v : Int) < 24 :=
      ⟨Int.natCast_nonneg v, by exact_mod_cast hv⟩
    simp only [set_hour, if_neg (not_not_intro hP), __get_bit_12_24, __read_register,
      __write_register, Res.bind_mk_ok, _REGISTER_HOUR, _REGISTER_CONTROL_1, h12,
      h83, if_false, updateReg_same]
    refine ⟨trivial, ?_⟩
    clear hP
    revert v
    decide
  · simp only [get_hour, __get_bit_12_24, __read_register, Res.bind_mk_ok,
      _REGISTER_HOUR, _REGISTER_CONTROL_1, h12, h83, if_false]
  · simp only [get_hour, __get_bit_12_24, __read_register, Res.bind_mk_ok,
      _REGISTER_HOUR, _REGISTER_CONTROL_1, h12, h83, if_false]
    rfl

/-- C8 witness: the 12h-mode claim applied on a bus whose control register 1
byte is 8, at hour 13 (byte 0x21, i.e. meridiem 1, units 1). -/
theorem C8_hour_12h_mode_witness :
    busMode12.regs _REGISTER_CONTROL_1 &&& 0x08 = 8 ∧ 13 < 24 ∧
    ((set_hour busMode12 (13 : Int)).result = .ok ⟨⟩ ∧
      (set_hour busMode12 (13 : Int)).bus.regs _REGISTER_HOUR =
        (((if 13 ≤ 12 then 0 else 1) <<< 5) |||
          (((if 13 = 12 then 12 else 13 % 12) / 10) <<< 4) |||
          ((if 13 = 12 then 12 else 13 % 12) % 10))) ∧
    (get_hour busMode12).result =
      .ok (12 * ((busMode12.regs _REGISTER_HOUR &&& 0x20) >>> 5) +
        10 * ((busMode12.regs _REGISTER_HOUR &&& 0x10) >>> 4) +
        (busMode12.regs _REGISTER_HOUR &&& 0x0F)) :=
  ⟨by decide, by decide,
    (C8_hour_12h_mode busMode12 (by decide)).1 13 (by decide),
    (C8_hour_12h_mode busMode12 (by decide)).2.1⟩

end PCF8523

namespace PCF8523

/-- C5: on any byte-per-register bus state, `set_time((2015,10,21,16,29,0))`
succeeds and a following `now()` returns exactly
(2015, 10, 21, 16, 29, 0, 0, 0), with the two trailing slots 0. -/
theorem C5_set_time_now (st : I2C) :
    (set_time st [2015, 10, 21, 16, 29, 0]).result = .ok ⟨⟩ ∧
    (now (set_time st [2015, 10, 21, 16, 29, 0]).bus).result =
      .ok [.int 2015, .int 10, .int 21, .int 16, .int 29, .int 0, .int 0, .int 0] := by
  rcases and_eight (st.regs 0) with hm | hm <;>
    simp [set_time, tupleItem, set_year, set_month, set_day, set_hour, set_minute,
      set_second, now, get_year, get_month, get_day, get_hour, get_minute, get_second,
      __get_bit_12_24, __read_register, __write_register, Res.bind_mk_ok, updateReg,
      _REGISTER_CONTROL_1, _REGISTER_SECOND, _REGISTER_MINUTE, _REGISTER_HOUR,
      _REGISTER_DAY, _REGISTER_MONTH, _REGISTER_YEAR, hm] <;>
    decide

end PCF8523

namespace PCF8523

/-- C6: for every tuple of length at least 3 with valid field values,
`set_time` succeeds, writes the year, month and day registers exactly as the
corresponding field setters would for positions 0, 1 and 2, and writes the
hour, minute and second registers as their setters would for positions 3, 4
and 5 when the tuple is long enough to contain them, else for the default
value 0. -/
theorem C6_set_time_positions (st : I2C) (y mo d : Int) (rest : List Int)
    (hy : 1970 ≤ y ∧ y < 2120) (hmo : 1 ≤ mo ∧ mo < 13) (hd : 1 ≤ d ∧ d < 31)
    (hh : 0 ≤ rest.getD 0 0 ∧ rest.getD 0 0 < 24)
    (hmi : 0 ≤ rest.getD 1 0 ∧ rest.getD 1 0 < 60)
    (hs : 0 ≤ rest.getD 2 0 ∧ rest.getD 2 0 < 60) :
    (set_time st (y :: mo :: d :: rest)).result = .ok ⟨⟩ ∧
    (set_time st (y :: mo :: d :: rest)).bus.regs _REGISTER_YEAR =
      (set_year st y).bus.regs _REGISTER_YEAR ∧
    (set_time st (y :: mo :: d :: rest)).bus.regs _REGISTER_MONTH =
      (set_month st (.int mo)).bus.regs _REGISTER_MONTH ∧
    (set_time st (y :: mo :: d :: rest)).bus.regs _REGISTER_DAY =
      (set_day st d).bus.regs _REGISTER_DAY ∧
    (set_time st (y :: mo :: d :: rest)).bus.regs _REGISTER_HOUR =
      (set_hour st (rest.getD 0 0)).bus.regs _REGISTER_HOUR ∧
    (set_time st (y :: mo :: d :: rest)).bus.regs _REGISTER_MINUTE =
      (set_minute st (rest.getD 1 0)).bus.regs _REGISTER_MINUTE ∧
    (set_time st (y :: mo :: d :: rest)).bus.regs _REGISTER_SECOND =
      (set_second st (rest.getD 2 0)).bus.regs _REGISTER_SECOND := by
  obtain ⟨hy1, hy2⟩ := hy
  obtain ⟨hmo1, hmo2⟩ := hmo
  obtain ⟨hd1, hd2⟩ := hd
  obtain ⟨hh1, hh2⟩ := hh
  obtain ⟨hmi1, hmi2⟩ := hmi
  obtain ⟨hs1, hs2⟩ := hs
  have hy2n : ¬ 2120 ≤ y := not_le.mpr hy2
  have hmo2n : ¬ 13 ≤ mo := not_le.mpr hmo2
  have hd2n : ¬ 31 ≤ d := not_le.mpr hd2
  rcases rest with _ | ⟨a, _ | ⟨b, _ | ⟨c, rest3⟩⟩⟩
  · rcases and_eight (st.regs 0) with hm | hm <;>
      simp [set_time, tupleItem, set_year, set_month, set_day, set_hour, set_minute,
        set_second, __get_bit_12_24, __read_register, __write_register, Res.bind_mk_ok,
        updateReg, _REGISTER_CONTROL_1, _REGISTER_SECOND, _REGISTER_MINUTE, _REGISTER_HOUR,
        _REGISTER_DAY, _REGISTER_MONTH, _REGISTER_YEAR, List.getD_cons_zero,
        List.getD_cons_succ, List.getD_nil, hy1, hy2n, hmo1, hmo2n, hd1, hd2n, hm]
  · simp only [List.getD_cons_zero, List.getD_cons_succ, List.getD_nil] at hh1 hh2
    have hh2n : ¬ 24 ≤ a := not_le.mpr hh2
    rcases and_eight (st.regs 0) with hm | hm <;>
      simp [set_time, tupleItem, set_year, set_month, set_day, set_hour, set_minute,
        set_second, __get_bit_12_24, __read_register, __write_register, Res.bind_mk_ok,
        updateReg, _REGISTER_CONTROL_1, _REGISTER_SECOND, _REGISTER_MINUTE, _REGISTER_HOUR,
        _REGISTER_DAY, _REGISTER_MONTH, _REGISTER_YEAR, List.getD_cons_zero,
        List.getD_cons_succ, List.getD_nil, hy1, hy2n, hmo1, hmo2n, hd1, hd2n, hm, hh1, hh2n]
  · simp only [List.getD_cons_zero, List.getD_cons_succ, List.getD_nil] at hh1 hh2 hmi1 hmi2
    have hh2n : ¬ 24 ≤ a := not_le.mpr hh2
    have hmi2n : ¬ 60 ≤ b := not_le.mpr hmi2
    rcases and_eight (st.regs 0) with hm | hm <;>
      simp [set_time, tupleItem, set_year, set_month, set_day, set_hour, set_minute,
        set_second, __get_bit_12_24, __read_register, __write_register, Res.bind_mk_ok,
        updateReg, _REGISTER_CONTROL_1, _REGISTER_SECOND, _REGISTER_MINUTE, _REGISTER_HOUR,
        _REGISTER_DAY, _REGISTER_MONTH, _REGISTER_YEAR, List.getD_cons_zero,
        List.getD_cons_succ, List.getD_nil, hy1, hy2n, hmo1, hmo2n, hd1, hd2n, hm, hh1, hh2n, hmi1, hmi2n]
  · simp only [List.getD_cons_zero, List.getD_cons_succ, List.getD_nil]
      at hh1 hh2 hmi1 hmi2 hs1 hs2
    have hh2n : ¬ 24 ≤ a := not_le.mpr hh2
    have hmi2n : ¬ 60 ≤ b := not_le.mpr hmi2
    have hs2n : ¬ 60 ≤ c := not_le.mpr hs2
    rcases and_eight (st.regs 0) with hm | hm <;>
      simp [set_time, tupleItem, set_year, set_month, set_day, set_hour, set_minute,
        set_second, __get_bit_12_24, __read_register, __write_register, Res.bind_mk_ok,
        updateReg, _REGISTER_CONTROL_1, _REGISTER_SECOND, _REGISTER_MINUTE, _REGISTER_HOUR,
        _REGISTER_DAY, _REGISTER_MONTH, _REGISTER_YEAR, List.getD_cons_zero,
        List.getD_cons_succ, List.getD_nil, hy1, hy2n, hmo1, hmo2n, hd1, hd2n, hm, hh1, hh2n, hmi1, hmi2n, hs1, hs2n]

end PCF8523

namespace PCF8523

/-- C6 witness: the positional-write claim applied on the all-zero bus to
the length-4 tuple (1999, 12, 5, 7). -/
theorem C6_set_time_positions_witness :
    ((1970:Int) ≤ 1999 ∧ (1999:Int) < 2120) ∧
    ((1:Int) ≤ 12 ∧ (12:Int) < 13) ∧
    ((1:Int) ≤ 5 ∧ (5:Int) < 31) ∧
    ((0:Int) ≤ ([7] : List Int).getD 0 0 ∧ ([7] : List Int).getD 0 0 < 24) ∧
    ((0:Int) ≤ ([7] : List Int).getD 1 0 ∧ ([7] : List Int).getD 1 0 < 60) ∧
    ((0:Int) ≤ ([7] : List Int).getD 2 0 ∧ ([7] : List Int).getD 2 0 < 60) ∧
    ((set_time bus0 [1999, 12, 5, 7]).result = .ok ⟨⟩ ∧
     (set_time bus0 [1999, 12, 5, 7]).bus.regs _REGISTER_YEAR =
       (set_year bus0 1999).bus.regs _REGISTER_YEAR ∧
     (set_time bus0 [1999, 12, 5, 7]).bus.regs _REGISTER_MONTH =
       (set_month bus0 (.int 12)).bus.regs _REGISTER_MONTH ∧
     (set_time bus0 [1999, 12, 5, 7]).bus.regs _REGISTER_DAY =
       (set_day bus0 5).bus.regs _REGISTER_DAY ∧
     (set_time bus0 [1999, 12, 5, 7]).bus.regs _REGISTER_HOUR =
       (set_hour bus0 (([7] : List Int).getD 0 0)).bus.regs _REGISTER_HOUR ∧
     (set_time bus0 [1999, 12, 5, 7]).bus.regs _REGISTER_MINUTE =
       (set_minute bus0 (([7] : List Int).getD 1 0)).bus.regs _REGISTER_MINUTE ∧
     (set_time bus0 [1999, 12, 5, 7]).bus.regs _REGISTER_SECOND =
       (set_second bus0 (([7] : List Int).getD 2 0)).bus.regs _REGISTER_SECOND) :=
  ⟨by decide, by decide, by decide, by decide, by decide, by decide,
    C6_set_time_positions bus0 1999 12 5 [7] (by decide) (by decide) (by decide)
      (by decide) (by decide) (by decide)⟩

end PCF8523
